import Mathlib

/-!
Verification of the MagicGenerator test-data generator
(`magicgenerator.py` / `datagenerator.py`).

The development shallowly embeds the schema-driven value-generation engine
and the file-production orchestrator:

* Python strings are Lean `String`s, but every string operation the code
  uses (`strip`, `startswith`, `endswith`, `split`, slicing, `int(...)`)
  is re-implemented structurally over `List Char` so that all definitions
  compute by kernel reduction.
* Randomness (`random.randint`, `random.choice`), the uuid source and the
  clock are modelled by explicit oracle parameters (`RandState`): a random
  draw `r : Nat` is mapped into the requested range by `a + r % (b-a+1)`,
  which realises exactly the values `random.randint(a, b)` can produce.
* `sys.exit(1)` raises `SystemExit` (not an `Exception`), while ordinary
  Python exceptions are a different kind of failure; the error type
  `PyErr` keeps the two apart because `except Exception` handlers catch
  only the latter.
-/

/-- A generated JSON value: the generator produces strings, integers or
Python `None`. -/
inductive PyVal where
  | int (n : Int)
  | str (s : String)
  | none
deriving DecidableEq

/-- The two kinds of failure the Python code can raise while generating:
`systemExit` models `sys.exit(1)` (raises `SystemExit`, which is *not* a
subclass of `Exception`), `exception` models an ordinary `Exception`
(e.g. a `ValueError` from tuple unpacking or an `OSError`). -/
inductive PyErr where
  | systemExit
  | exception
deriving DecidableEq

/-- Oracle for one value generation: `r` feeds `random.randint` /
`random.choice`, `u` is the string `str(uuid.uuid4())` would produce,
`t` the string `str(time.time())` would produce. -/
structure RandState where
  r : Nat
  u : String
  t : String

/-! ### String primitives (structural models of the Python built-ins) -/

/-- Model of Python's `str.startswith`: is `p` a prefix of `s`? -/
def strStartsWith (s p : String) : Bool :=
  p.data.isPrefixOf s.data

/-- Model of Python's `str.endswith`: is `p` a suffix of `s`? -/
def strEndsWith (s p : String) : Bool :=
  p.data.reverse.isPrefixOf s.data.reverse

/-- Whitespace characters stripped by Python's `str.strip()` (the common
ones; form feed and vertical tab are omitted as they never occur here). -/
def isSpaceChar (c : Char) : Bool :=
  c = ' ' || c = '\t' || c = '\n' || c = '\r'

/-- Model of Python's `str.strip()`. -/
def strTrim (s : String) : String :=
  String.mk (((s.data.dropWhile isSpaceChar).reverse.dropWhile isSpaceChar).reverse)

/-- Model of Python slicing `s[n:]`. -/
def strDrop (s : String) (n : Nat) : String :=
  String.mk (s.data.drop n)

/-- Model of Python slicing `s[:-n]`. -/
def strDropRight (s : String) (n : Nat) : String :=
  String.mk (s.data.take (s.data.length - n))

/-- Model of Python's `c in s` membership test for a single character. -/
def strContains (s : String) (c : Char) : Bool :=
  s.data.contains c

/-- `splitFirst sep cs` models `s.split(sep, 1)` when it yields two parts:
the characters before the first `sep` and those after it; `none` when
`sep` does not occur (Python would return a one-element list and tuple
unpacking would raise `ValueError`). -/
def splitFirst (sep : Char) : List Char → Option (List Char × List Char)
  | [] => Option.none
  | c :: rest =>
    if c = sep then Option.some ([], rest)
    else (splitFirst sep rest).map (fun p => (c :: p.1, p.2))

/-- `s.split(':', 1)` with mandatory two-part unpacking. -/
def splitColon1 (s : String) : Option (String × String) :=
  (splitFirst ':' s.data).map (fun p => (String.mk p.1, String.mk p.2))

/-- `s.split(':', 1)[0]`: the text before the first `':'` (the whole
string when there is no colon, as Python's `split` returns `[s]`). -/
def headBeforeColon (s : String) : String :=
  match splitFirst ':' s.data with
  | Option.some p => String.mk p.1
  | Option.none => s

/-- Model of Python's `s.split(sep)` for a single-character separator:
splits into all groups, keeping empty groups (`"".split(',') == [""]`). -/
def splitChars (sep : Char) : List Char → List (List Char)
  | [] => [[]]
  | c :: rest =>
    if c = sep then [] :: splitChars sep rest
    else
      match splitChars sep rest with
      | g :: gs => (c :: g) :: gs
      | [] => [[c]]

/-- `s.split(sep)` returning `String`s. -/
def strSplit (s : String) (sep : Char) : List String :=
  (splitChars sep s.data).map String.mk

/-- Digit value of a decimal digit character. -/
def digitVal (c : Char) : Option Nat :=
  if '0' ≤ c ∧ c ≤ '9' then Option.some (c.toNat - '0'.toNat) else Option.none

/-- Accumulating decimal parser over characters. -/
def natOfCharsGo : List Char → Nat → Option Nat
  | [], acc => Option.some acc
  | c :: rest, acc =>
    match digitVal c with
    | Option.some d => natOfCharsGo rest (10 * acc + d)
    | Option.none => Option.none

/-- All-digit decimal parser; fails on the empty string. -/
def natOfChars (cs : List Char) : Option Nat :=
  match cs with
  | [] => Option.none
  | _ => natOfCharsGo cs 0

/-- Model of Python's `int(s)` on an already-stripped string: an optional
leading `'-'` followed by decimal digits; anything else raises
`ValueError` (modelled by `none`). -/
def strToInt (s : String) : Option Int :=
  match s.data with
  | [] => Option.none
  | '-' :: rest => (natOfChars rest).map (fun n => -(n : Int))
  | cs => (natOfChars cs).map (fun n => (n : Int))

/-! ### Randomness primitives -/

/-- Model of `random.randint(a, b)` for `a ≤ b`: the oracle draw `r` is
mapped into `[a, b]`; as `r` ranges over `Nat` this realises exactly the
values the library call can return.  (For `b < a` the library raises; the
callers model that case separately.) -/
def randint (a b : Int) (r : Nat) : Int :=
  a + (r : Int) % (b - a + 1)

/-- Model of `random.choice(l)`: picks the element at the oracle-chosen
index; `none` on the empty list (the library raises `IndexError`). -/
def choice (l : List PyVal) (r : Nat) : Option PyVal :=
  l.get? (r % l.length)

/-! ### List-literal parsing

`generate_string` / `generate_integer` accept a bracket-delimited list,
first via `json.loads` and then via `ast.literal_eval` (which tolerates
single-quoted strings).  `parseListLiteral` models that composite for the
flat lists of integer and string literals the generator deals with:
elements are comma-separated; an element is a double-quoted string (JSON),
a single-quoted string (the `ast.literal_eval` fallback), or a decimal
integer; anything else fails both library parsers. -/

/-- The single-quote character `'`. -/
def squote : Char := Char.ofNat 39

/-- Parse one comma-separated element of a bracketed list literal. -/
def parseListElem (e : String) : Option PyVal :=
  let t := strTrim e
  if 2 ≤ t.data.length ∧ strStartsWith t "\"" ∧ strEndsWith t "\"" then
    Option.some (PyVal.str (strDropRight (strDrop t 1) 1))
  else if 2 ≤ t.data.length ∧ t.data.head? = Option.some squote ∧ t.data.getLast? = Option.some squote then
    Option.some (PyVal.str (strDropRight (strDrop t 1) 1))
  else
    (strToInt t).map PyVal.int

/-- `Option`-valued `List.map` that fails when any element fails. -/
def mapOptionList (f : α → Option β) : List α → Option (List β)
  | [] => Option.some []
  | a :: as =>
    match f a, mapOptionList f as with
    | Option.some b, Option.some bs => Option.some (b :: bs)
    | _, _ => Option.none

/-- Model of the `json.loads` / `ast.literal_eval` cascade of the source
restricted to bracket-delimited flat lists (the only shape the guard
`value_spec.startswith('[') and value_spec.endswith(']')` admits):
returns the parsed element list, or `none` when both parsers fail. -/
def parseListLiteral (v : String) : Option (List PyVal) :=
  if strStartsWith v "[" && strEndsWith v "]" then
    let inner := strDropRight (strDrop v 1) 1
    if strTrim inner = "" then Option.some []
    else mapOptionList parseListElem (strSplit inner ',')
  else Option.none

/-! ### The ValueSpec interpreter (`DataGenerator.generate_*`) -/

/-- The range parsing inside the `rand(a,b)` branch of
`generate_integer`: `value_spec[5:-1]` split on `','`, exactly two parts,
each converted with `int(...)`. -/
def parseRandRange (v : String) : Option (Int × Int) :=
  if strStartsWith v "rand(" && strEndsWith v ")" then
    let rangeStr := strDropRight (strDrop v 5) 1
    match strSplit rangeStr ',' with
    | [p0, p1] =>
      match strToInt (strTrim p0), strToInt (strTrim p1) with
      | Option.some a, Option.some b => Option.some (a, b)
      | _, _ => Option.none
    | _ => Option.none
  else Option.none

/-- Embedding of `DataGenerator.generate_string`.  Every failing branch of
the source logs and calls `sys.exit(1)`, hence `PyErr.systemExit`. -/
def generateString (spec : String) (rs : RandState) : Except PyErr PyVal :=
  let v := strTrim spec
  if v = "rand" then Except.ok (PyVal.str rs.u)
  else if strStartsWith v "rand(" && strEndsWith v ")" then
    Except.error PyErr.systemExit
  else if strStartsWith v "[" && strEndsWith v "]" then
    match parseListLiteral v with
    | Option.some choices =>
      match choice choices rs.r with
      | Option.some c => Except.ok c
      | Option.none => Except.error PyErr.systemExit
    | Option.none => Except.error PyErr.systemExit
  else if v = "" then Except.ok (PyVal.str "")
  else Except.ok (PyVal.str v)

/-- Embedding of `DataGenerator.generate_integer`.  The `rand(a,b)` branch
parses two integer bounds and draws `random.randint(a, b)`; when `b < a`
the library call raises, which the surrounding handler turns into
`sys.exit(1)`. -/
def generateInteger (spec : String) (rs : RandState) : Except PyErr PyVal :=
  let v := strTrim spec
  if v = "rand" then Except.ok (PyVal.int (randint 0 10000 rs.r))
  else if strStartsWith v "rand(" && strEndsWith v ")" then
    match parseRandRange v with
    | Option.some (a, b) =>
      if b < a then Except.error PyErr.systemExit
      else Except.ok (PyVal.int (randint a b rs.r))
    | Option.none => Except.error PyErr.systemExit
  else if strStartsWith v "[" && strEndsWith v "]" then
    match parseListLiteral v with
    | Option.some choices =>
      match choice choices rs.r with
      | Option.some c => Except.ok c
      | Option.none => Except.error PyErr.systemExit
    | Option.none => Except.error PyErr.systemExit
  else if v = "" then Except.ok PyVal.none
  else
    match strToInt v with
    | Option.some n => Except.ok (PyVal.int n)
    | Option.none => Except.error PyErr.systemExit

/-- Embedding of `DataGenerator.generate_value`: dispatch on the field
type; an unrecognised type exits.  The wrapping `except Exception`
handler of the source re-raises every ordinary failure as `sys.exit(1)`;
the branches above already only produce `systemExit`. -/
def generateValue (fieldType spec : String) (rs : RandState) : Except PyErr PyVal :=
  if fieldType = "timestamp" then Except.ok (PyVal.str rs.t)
  else if fieldType = "str" then generateString spec rs
  else if fieldType = "int" then generateInteger spec rs
  else Except.error PyErr.systemExit

/-! ### Line and file generation -/

/-- Embedding of `DataGenerator.generate_line`: for each schema entry,
`field_type, spec = value_spec.split(':', 1)` (an unpacking failure is an
ordinary `ValueError`, hence `PyErr.exception`), both parts stripped,
then `generate_value`.  Randomness is threaded per field through the
oracle `rs`. -/
def generateLine (schema : List (String × String)) (rs : Nat → RandState) :
    Except PyErr (List (String × PyVal)) :=
  match schema with
  | [] => Except.ok []
  | (k, vspec) :: rest =>
    match splitColon1 vspec with
    | Option.none => Except.error PyErr.exception
    | Option.some (ft, sp) =>
      match generateValue (strTrim ft) (strTrim sp) (rs 0) with
      | Except.error e => Except.error e
      | Except.ok val =>
        match generateLine rest (fun n => rs (n + 1)) with
        | Except.error e => Except.error e
        | Except.ok line => Except.ok ((k, val) :: line)

/-- Embedding of `DataGenerator.generate_filename`.  `r` is the draw for
`random.randint(1000, 9999)` and `u` the uuid string. -/
def generateFilename (fileName strategy : String) (filesCount : Int)
    (fileIndex : Nat) (totalFiles : Int) (r : Nat) (u : String) : String :=
  if totalFiles = 1 ∧ filesCount ≠ 0 then fileName ++ ".json"
  else if strategy = "count" then
    fileName ++ ("_" ++ (Nat.repr (fileIndex + 1) ++ ".json"))
  else if strategy = "random" then
    fileName ++ ("_" ++ (Int.repr (randint 1000 9999 r) ++ ".json"))
  else if strategy = "uuid" then
    fileName ++ ("_" ++ (u ++ ".json"))
  else fileName ++ ".json"

/-- The fields of the parsed CLI `args` object that `generate_file`
consumes. -/
structure FileArgs where
  fileName : String
  strategy : String
  filesCount : Int
  dataLines : Nat
  dataSchema : List (String × String)

/-- The `for i in range(args.data_lines)` loop body of `generate_file`:
generate `n` lines, each with its own randomness slice, stopping at the
first failing line. -/
def genLines : Nat → List (String × String) → (Nat → Nat → RandState) →
    Except PyErr (List (List (String × PyVal)))
  | 0, _, _ => Except.ok []
  | Nat.succ m, schema, rs =>
    match generateLine schema (rs 0) with
    | Except.error e => Except.error e
    | Except.ok line =>
      match genLines m schema (fun i => rs (i + 1)) with
      | Except.error e => Except.error e
      | Except.ok more => Except.ok (line :: more)

/-- Embedding of `DataGenerator.generate_file`.  The whole body sits in a
`try`/`except Exception` that logs the failed `file_index` and returns
`None`: `ioError` models an `OSError` from `open(filepath, 'w')` (an
ordinary exception, caught); a `PyErr.exception` from line generation is
likewise caught; but a `PyErr.systemExit` (raised by every value-generation
failure) is *not* an `Exception`, escapes the handler and terminates the
process, modelled by `Except.error ()`. -/
def generateFile (args : FileArgs) (fileIndex : Nat) (totalFiles : Int)
    (rs : Nat → Nat → RandState) (fnameRand : Nat) (fnameUuid : String)
    (ioError : Bool) : Except Unit (Option String) :=
  let filename := generateFilename args.fileName args.strategy args.filesCount
      fileIndex totalFiles fnameRand fnameUuid
  if ioError then Except.ok Option.none
  else
    match genLines args.dataLines args.dataSchema rs with
    | Except.ok _ => Except.ok (Option.some filename)
    | Except.error PyErr.exception => Except.ok Option.none
    | Except.error PyErr.systemExit => Except.error ()

/-! ### Schema validation (`DataGenerator.validate_schema`) -/

/-- The JSON values a parsed schema object can hold, as far as validation
distinguishes them: an object, a string, or some non-string scalar. -/
inductive JVal where
  | obj (entries : List (String × JVal))
  | str (s : String)
  | num (n : Int)

/-- The diagnostics `validate_schema` can emit; each value-level reason
carries the offending key, as the logged messages do. -/
inductive SchemaReason where
  | notDict
  | valueNotString (key : String)
  | missingColon (key : String)
  | badType (key : String) (t : String)
deriving DecidableEq

/-- The key named by a validation diagnostic. -/
def reasonKey : SchemaReason → Option String
  | SchemaReason.notDict => Option.none
  | SchemaReason.valueNotString k => Option.some k
  | SchemaReason.missingColon k => Option.some k
  | SchemaReason.badType k _ => Option.some k

/-- The per-entry checks of the `for key, value in schema.items()` loop:
value must be a string, must contain `':'`, and the stripped text before
the first `':'` must be one of the three recognised types. -/
def entryCheck (k : String) (v : JVal) : Except SchemaReason Unit :=
  match v with
  | JVal.str s =>
    if strContains s ':' = false then Except.error (SchemaReason.missingColon k)
    else
      let lt := strTrim (headBeforeColon s)
      if lt = "timestamp" ∨ lt = "str" ∨ lt = "int" then Except.ok ()
      else Except.error (SchemaReason.badType k lt)
  | _ => Except.error (SchemaReason.valueNotString k)

/-- The validation loop: stops at the first failing entry. -/
def validateEntries : List (String × JVal) → Except SchemaReason Unit
  | [] => Except.ok ()
  | (k, v) :: rest =>
    match entryCheck k v with
    | Except.error r => Except.error r
    | Except.ok _ => validateEntries rest

/-- Embedding of `DataGenerator.validate_schema`: rejects non-mappings,
then runs the per-entry loop. -/
def validateSchema : JVal → Except SchemaReason Unit
  | JVal.obj es => validateEntries es
  | _ => Except.error SchemaReason.notDict

/-- The string payload of a schema value; after validation every value is
a `JVal.str`, so the default is unreachable in the pipeline below. -/
def jvalStr : JVal → String
  | JVal.str s => s
  | _ => ""

/-- The run pipeline order of `MagicGenerator.run`: the schema is parsed
and validated (`validate_arguments` → `parse_schema` → `validate_schema`)
before any line is generated; a validation failure aborts with no
generated output. -/
def runPipeline (input : JVal) (rs : Nat → RandState) :
    Except (Sum SchemaReason PyErr) (List (String × PyVal)) :=
  match validateSchema input with
  | Except.error r => Except.error (Sum.inl r)
  | Except.ok _ =>
    match input with
    | JVal.obj es =>
      match generateLine (es.map (fun p => (p.1, jvalStr p.2))) rs with
      | Except.error e => Except.error (Sum.inr e)
      | Except.ok line => Except.ok line
    | _ => Except.error (Sum.inl SchemaReason.notDict)

/-! ### The orchestrator's partition (`MagicGenerator.generate_data_parallel`) -/

/-- `files_per_process = max(1, args.files_count // args.multiprocessing)`. -/
def filesPerProcess (filesCount workers : Nat) : Nat :=
  max 1 (filesCount / workers)

/-- The dispatch loop of `generate_data_parallel`: for each worker `i`,
`start_idx = i * files_per_process`, `end_idx = start_idx +
files_per_process` (overridden to `files_count` for the last worker), and
the chunk `(start_idx, files_to_generate)` is submitted to the pool iff
`files_to_generate > 0`. -/
def chunks (filesCount workers : Nat) : List (Nat × Nat) :=
  (List.range workers).filterMap (fun i =>
    let fpp := filesPerProcess filesCount workers
    let start := i * fpp
    let endIdx : Int := if i = workers - 1 then (filesCount : Int) else (start + fpp : Int)
    let ftg : Int := endIdx - (start : Int)
    if 0 < ftg then Option.some (start, ftg.toNat) else Option.none)

/-- The file indices produced by the dispatched chunks, via
`generate_files_chunk`'s `for i in range(num_files): start_index + i`. -/
def dispatchedIndices (filesCount workers : Nat) : List Nat :=
  (chunks filesCount workers).flatMap (fun c => (List.range c.2).map (fun j => c.1 + j))

/-! ### Output-directory cleanup (`DataGenerator.clear_path`) -/

/-- Does `name` match the glob pattern `{base}*.json` (i.e. `name` is
`base`, then anything, then `.json`)? -/
def matchesGlob (base name : String) : Bool :=
  strStartsWith name base && strEndsWith name ".json" &&
    (base.data.length + 5 ≤ name.data.length)

/-- Embedding of `DataGenerator.clear_path` as an effect on the set of
files in the output directory: when clearing is requested, every file
matching `{base}*.json` is unlinked; a failing unlink (oracle
`deleteFails`) is logged as a warning and the file survives; the loop
always runs to completion and the run continues. -/
def clearPath (clearFlag : Bool) (base : String) (files : List String)
    (deleteFails : String → Bool) : List String :=
  if clearFlag then
    files.filter (fun f => !(matchesGlob base f) || deleteFails f)
  else files

/-! ### Shared helper lemmas and witness oracles -/

/-- A constant per-field randomness oracle used by concrete witnesses. -/
def rsConst : Nat → RandState := fun _ => ⟨0, "u", "t"⟩

/-- A constant per-line randomness oracle used by concrete witnesses. -/
def rsConst2 : Nat → Nat → RandState := fun _ _ => ⟨0, "u", "t"⟩

/-- The always-succeeding deletion oracle used by concrete witnesses. -/
def noDeleteFail : String → Bool := fun _ => false

theorem isPrefixOf_bracket_rand (cs : List Char) (h : List.isPrefixOf ['['] cs = true) :
    List.isPrefixOf ['r', 'a', 'n', 'd', '('] cs = false := by
  cases cs with
  | nil => exact absurd h (by decide)
  | cons c rest =>
    have h' : (('[' == c) && List.isPrefixOf ([] : List Char) rest) = true := h
    have hc : c = '[' := (beq_iff_eq.mp ((Bool.and_eq_true _ _).mp h').1).symm
    subst hc
    have he : List.isPrefixOf ['r', 'a', 'n', 'd', '('] ('[' :: rest) =
        (('r' == '[') && List.isPrefixOf ['a', 'n', 'd', '('] rest) := rfl
    rw [he, show ('r' == '[') = false from rfl, Bool.false_and]

theorem bracket_guard_facts (v : String) (h : strStartsWith v "[" = true) :
    v ≠ "rand" ∧ strStartsWith v "rand(" = false := by
  constructor
  · intro he
    subst he
    exact absurd h (by decide)
  · have h' : List.isPrefixOf ['['] v.data = true := h
    exact isPrefixOf_bracket_rand v.data h'

theorem choice_mem {l : List PyVal} {r : Nat} {c : PyVal}
    (h : choice l r = Option.some c) : c ∈ l :=
  List.get?_mem h

theorem randint_bounds (a b : Int) (r : Nat) (hab : a ≤ b) :
    a ≤ randint a b r ∧ randint a b r ≤ b := by
  have h1 : 0 ≤ (r : Int) % (b - a + 1) := Int.emod_nonneg _ (by omega)
  have h2 : (r : Int) % (b - a + 1) < b - a + 1 := Int.emod_lt_of_pos _ (by omega)
  unfold randint
  omega

/-- C1: for every schema that passes validation, `generate_line` builds the
output record by iterating the schema entries, so whenever it returns a
record at all, the record's keys are exactly the schema's keys, in the
schema's order: every schema key appears under the same name and no other
key appears.  (Proved for all schemas, which subsumes the validated ones.) -/
theorem generateLine_keys (schema : List (String × String)) (rs : Nat → RandState)
    (line : List (String × PyVal)) (h : generateLine schema rs = Except.ok line) :
    line.map Prod.fst = schema.map Prod.fst := by
  induction schema generalizing rs line with
  | nil =>
    unfold generateLine at h
    injection h with h
    subst h
    rfl
  | cons kv rest ih =>
    obtain ⟨k, vspec⟩ := kv
    unfold generateLine at h
    split at h
    · exact absurd h (by simp)
    · split at h
      · exact absurd h (by simp)
      · split at h
        · exact absurd h (by simp)
        · rename_i tail hr
          injection h with h
          subst h
          simpa using ih _ _ hr

/-- Witness for C1 at a concrete schema: generation succeeds and the
produced record has exactly the schema's keys. -/
theorem generateLine_keys_witness :
    generateLine [("a", "int:5"), ("b", "str:x")] rsConst =
      Except.ok [("a", PyVal.int 5), ("b", PyVal.str "x")] ∧
    ([("a", PyVal.int 5), ("b", PyVal.str "x")] : List (String × PyVal)).map Prod.fst =
      ([("a", "int:5"), ("b", "str:x")] : List (String × String)).map Prod.fst :=
  ⟨rfl, generateLine_keys [("a", "int:5"), ("b", "str:x")] rsConst
      [("a", PyVal.int 5), ("b", PyVal.str "x")] rfl⟩

/-- C2: the claim fails on the code.  With `files_count = 2` and
`multiprocessing = 4` (both ≥ 2), `files_per_process = max(1, 2 // 4) = 1`
and the dispatch loop submits the chunks `(0,1)`, `(1,1)` and `(2,1)`:
file index 2 is dispatched although only indices 0 and 1 were requested,
so a third file is generated.  (The spec's partition — exactly the indices
`0..N-1` — holds only when `workers ≤ files_count + 1`.) -/
theorem dispatch_out_of_range :
    dispatchedIndices 2 4 = [0, 1, 2] ∧ 2 ∈ dispatchedIndices 2 4 := by
  decide

/-- C3: the claim fails on the code.  A value-generation failure — here
the malformed list literal `[a]`, which both `json.loads` and
`ast.literal_eval` reject — makes `generate_string` call `sys.exit(1)`;
the resulting `SystemExit` is not an `Exception`, so `generate_file`'s
`except Exception` handler does not catch it and the process terminates
(`Except.error ()`) instead of returning the failure result `None`. -/
theorem generateFile_exit_counterexample :
    generateFile ⟨"data", "count", 1, 1, [("f", "str:[a]")]⟩ 0 1 rsConst2 0 "u" false =
      Except.error () := rfl

/-- C3 (amended): `generate_file` catches failures raised as ordinary
exceptions — an I/O error opening the target file, or an `Exception`
escaping line generation — logs the failed file index and returns `None`,
leaving the caller to decide; but a value-generation failure raises
`SystemExit` via `sys.exit(1)`, which bypasses the `except Exception`
handler and terminates the whole process. -/
theorem generateFile_error_boundary (args : FileArgs) (i : Nat) (t : Int)
    (rs : Nat → Nat → RandState) (fr : Nat) (fu : String) :
    generateFile args i t rs fr fu true = Except.ok Option.none ∧
    (genLines args.dataLines args.dataSchema rs = Except.error PyErr.exception →
      generateFile args i t rs fr fu false = Except.ok Option.none) ∧
    (genLines args.dataLines args.dataSchema rs = Except.error PyErr.systemExit →
      generateFile args i t rs fr fu false = Except.error ()) := by
  refine ⟨rfl, ?_, ?_⟩ <;> intro h <;> simp [generateFile, h]

/-- Witness for C3's amended theorem at the concrete failing input. -/
theorem generateFile_error_boundary_witness :
    genLines 1 [("f", "str:[a]")] rsConst2 = Except.error PyErr.systemExit ∧
    generateFile ⟨"data", "count", 1, 1, [("f", "str:[a]")]⟩ 0 1 rsConst2 0 "u" false =
      Except.error () :=
  ⟨rfl, (generateFile_error_boundary ⟨"data", "count", 1, 1, [("f", "str:[a]")]⟩
      0 1 rsConst2 0 "u").2.2 rfl⟩

/-- C4: when exactly one total file is requested (`files_count = 1`,
`total_files = 1`) the filename is `{base}.json` whatever the naming
strategy; and with 3 files under the `count` strategy the filenames for
indices 0, 1, 2 are `{base}_1.json`, `{base}_2.json`, `{base}_3.json`. -/
theorem generateFilename_policy (base strat : String) (r : Nat) (u : String) :
    generateFilename base strat 1 0 1 r u = base ++ ".json" ∧
    generateFilename base "count" 3 0 3 r u = base ++ "_1.json" ∧
    generateFilename base "count" 3 1 3 r u = base ++ "_2.json" ∧
    generateFilename base "count" 3 2 3 r u = base ++ "_3.json" := by
  refine ⟨?_, ?_, ?_, ?_⟩
  · unfold generateFilename
    rw [if_pos ⟨rfl, by decide⟩]
  · unfold generateFilename
    rw [if_neg (by simp), if_pos rfl]
    rfl
  · unfold generateFilename
    rw [if_neg (by simp), if_pos rfl]
    rfl
  · unfold generateFilename
    rw [if_neg (by simp), if_pos rfl]
    rfl

theorem parseRandRange_guard (v : String) (a b : Int)
    (hp : parseRandRange v = Option.some (a, b)) :
    (strStartsWith v "rand(" && strEndsWith v ")") = true := by
  by_cases h : (strStartsWith v "rand(" && strEndsWith v ")") = true
  · exact h
  · unfold parseRandRange at hp
    rw [if_neg h] at hp
    exact absurd hp (by simp)

/-- C5: whenever the specification is a well-formed `rand(a,b)` with
`a ≤ b`, `generate_integer` returns exactly `random.randint(a, b)`, and
every value that draw can produce lies in the inclusive range `[a, b]`. -/
theorem generateInteger_rand_range (spec : String) (a b : Int) (rs : RandState)
    (hp : parseRandRange (strTrim spec) = Option.some (a, b)) (hab : a ≤ b) :
    generateInteger spec rs = Except.ok (PyVal.int (randint a b rs.r)) ∧
    a ≤ randint a b rs.r ∧ randint a b rs.r ≤ b := by
  have hg := parseRandRange_guard _ a b hp
  have hne : strTrim spec ≠ "rand" := by
    intro he
    rw [he] at hg
    exact absurd hg (by decide)
  have hba : ¬ b < a := by omega
  refine ⟨?_, randint_bounds a b rs.r hab⟩
  simp only [generateInteger, hne, hg, hp, hba]
  rfl

/-- Witness for C5 at the concrete specification `rand(3,7)`. -/
theorem generateInteger_rand_range_witness :
    parseRandRange (strTrim "rand(3,7)") = Option.some ((3 : Int), (7 : Int)) ∧
    (3 : Int) ≤ 7 ∧
    (generateInteger "rand(3,7)" ⟨5, "u", "t"⟩ = Except.ok (PyVal.int (randint 3 7 5)) ∧
      (3 : Int) ≤ randint 3 7 5 ∧ randint 3 7 5 ≤ 7) :=
  ⟨rfl, by decide, generateInteger_rand_range "rand(3,7)" 3 7 ⟨5, "u", "t"⟩ rfl (by decide)⟩

theorem entryCheck_error_key (k : String) (v : JVal) (r : SchemaReason)
    (h : entryCheck k v = Except.error r) : reasonKey r = Option.some k := by
  cases v with
  | obj es =>
    simp only [entryCheck] at h
    injection h with h
    subst h
    rfl
  | num n =>
    simp only [entryCheck] at h
    injection h with h
    subst h
    rfl
  | str s =>
    simp only [entryCheck] at h
    split at h
    · injection h with h
      subst h
      rfl
    · split at h
      · exact absurd h (by simp)
      · injection h with h
        subst h
        rfl

theorem validateEntries_append_error (pre : List (String × JVal)) (k : String)
    (v : JVal) (post : List (String × JVal)) (r : SchemaReason)
    (hpre : ∀ p ∈ pre, entryCheck p.1 p.2 = Except.ok ())
    (hkv : entryCheck k v = Except.error r) :
    validateEntries (pre ++ (k, v) :: post) = Except.error r := by
  induction pre with
  | nil =>
    simp only [List.nil_append]
    unfold validateEntries
    rw [hkv]
  | cons p ps ih =>
    obtain ⟨pk, pv⟩ := p
    have hp : entryCheck pk pv = Except.ok () := hpre (pk, pv) (List.mem_cons_self _ _)
    simp only [List.cons_append]
    unfold validateEntries
    rw [hp]
    exact ih (fun q hq => hpre q (List.mem_cons_of_mem _ hq))

/-- C6: schema validation fails, with a diagnostic naming the offending
key, whenever the input is not a mapping, or some value is not a string,
or a value string has no `':'`, or the (trimmed) text before the first
`':'` is not one of `timestamp`/`str`/`int`; the loop stops at the first
violating entry (fail-fast: every earlier entry passed), and in the run
pipeline the failure surfaces before any value generation happens. -/
theorem schema_validation_fail_fast :
    (∀ s, validateSchema (JVal.str s) = Except.error SchemaReason.notDict) ∧
    (∀ n, validateSchema (JVal.num n) = Except.error SchemaReason.notDict) ∧
    (∀ k es, entryCheck k (JVal.obj es) = Except.error (SchemaReason.valueNotString k)) ∧
    (∀ k n, entryCheck k (JVal.num n) = Except.error (SchemaReason.valueNotString k)) ∧
    (∀ k s, strContains s ':' = false →
      entryCheck k (JVal.str s) = Except.error (SchemaReason.missingColon k)) ∧
    (∀ k s, strContains s ':' = true →
      strTrim (headBeforeColon s) ≠ "timestamp" →
      strTrim (headBeforeColon s) ≠ "str" →
      strTrim (headBeforeColon s) ≠ "int" →
      entryCheck k (JVal.str s) =
        Except.error (SchemaReason.badType k (strTrim (headBeforeColon s)))) ∧
    (∀ pre k v post r rs,
      (∀ p ∈ pre, entryCheck p.1 p.2 = Except.ok ()) →
      entryCheck k v = Except.error r →
      reasonKey r = Option.some k ∧
      validateSchema (JVal.obj (pre ++ (k, v) :: post)) = Except.error r ∧
      runPipeline (JVal.obj (pre ++ (k, v) :: post)) rs = Except.error (Sum.inl r)) := by
  refine ⟨fun s => rfl, fun n => rfl, fun k es => rfl, fun k n => rfl, ?_, ?_, ?_⟩
  · intro k s h
    simp only [entryCheck]
    rw [if_pos h]
  · intro k s hcol h1 h2 h3
    simp only [entryCheck]
    rw [if_neg (by simp [hcol]), if_neg (by simp [h1, h2, h3])]
  · intro pre k v post r rs hpre hkv
    have hval := validateEntries_append_error pre k v post r hpre hkv
    refine ⟨entryCheck_error_key k v r hkv, hval, ?_⟩
    unfold runPipeline
    have hv : validateSchema (JVal.obj (pre ++ (k, v) :: post)) = Except.error r := hval
    rw [hv]

/-- Witness for C6: a two-entry schema whose first entry is valid and
whose second value `str_rand` lacks the `':'` separator; validation stops
there, names the key, and the pipeline aborts before generating. -/
theorem schema_validation_fail_fast_witness :
    reasonKey (SchemaReason.missingColon "name") = Option.some "name" ∧
    validateSchema (JVal.obj [("ok", JVal.str "str:rand"), ("name", JVal.str "str_rand")]) =
      Except.error (SchemaReason.missingColon "name") ∧
    runPipeline (JVal.obj [("ok", JVal.str "str:rand"), ("name", JVal.str "str_rand")]) rsConst =
      Except.error (Sum.inl (SchemaReason.missingColon "name")) :=
  schema_validation_fail_fast.2.2.2.2.2.2 [("ok", JVal.str "str:rand")] "name"
    (JVal.str "str_rand") [] (SchemaReason.missingColon "name") rsConst
    (by intro p hp; rw [List.mem_singleton] at hp; subst hp; rfl) rfl

theorem parseListLiteral_guard (v : String) (l : List PyVal)
    (hp : parseListLiteral v = Option.some l) :
    (strStartsWith v "[" && strEndsWith v "]") = true := by
  by_cases h : (strStartsWith v "[" && strEndsWith v "]") = true
  · exact h
  · unfold parseListLiteral at hp
    rw [if_neg h] at hp
    exact absurd hp (by simp)

/-- C7: for every bracketed list specification that parses to a list (via
the strict-JSON / permissive-literal cascade), any value `generate_string`
or `generate_integer` produces for that specification is a member of the
supplied list. -/
theorem list_spec_member (spec : String) (choices : List PyVal) (rs : RandState)
    (v : PyVal) (hp : parseListLiteral (strTrim spec) = Option.some choices) :
    (generateString spec rs = Except.ok v → v ∈ choices) ∧
    (generateInteger spec rs = Except.ok v → v ∈ choices) := by
  have hg := parseListLiteral_guard _ _ hp
  have hb1 : strStartsWith (strTrim spec) "[" = true := ((Bool.and_eq_true _ _).mp hg).1
  obtain ⟨hne, hnsw⟩ := bracket_guard_facts _ hb1
  have hg2 : (strStartsWith (strTrim spec) "rand(" && strEndsWith (strTrim spec) ")") = false := by
    rw [hnsw, Bool.false_and]
  constructor
  · intro h
    simp only [generateString, hne, hg2, hg, hp] at h
    cases hc : choice choices rs.r with
    | some c =>
      rw [hc] at h
      injection h with h
      subst h
      exact choice_mem hc
    | none =>
      rw [hc] at h
      exact absurd h (by simp)
  · intro h
    simp only [generateInteger, hne, hg2, hg, hp] at h
    cases hc : choice choices rs.r with
    | some c =>
      rw [hc] at h
      injection h with h
      subst h
      exact choice_mem hc
    | none =>
      rw [hc] at h
      exact absurd h (by simp)

/-- Witness for C7 at the concrete specification `[1,2]`: the parse
yields the two-element list and the produced value is a member. -/
theorem list_spec_member_witness :
    parseListLiteral (strTrim "[1,2]") = Option.some [PyVal.int 1, PyVal.int 2] ∧
    PyVal.int 1 ∈ [PyVal.int 1, PyVal.int 2] :=
  ⟨rfl, (list_spec_member "[1,2]" [PyVal.int 1, PyVal.int 2] ⟨0, "u", "t"⟩
      (PyVal.int 1) rfl).1 rfl⟩

/-- C8: an empty (or whitespace-only) specification yields Python `None`
for an `int` field and the empty string for a `str` field. -/
theorem empty_spec_values (s : String) (rs : RandState) (h : strTrim s = "") :
    generateInteger s rs = Except.ok PyVal.none ∧
    generateString s rs = Except.ok (PyVal.str "") := by
  constructor
  · simp only [generateInteger, h]
    rfl
  · simp only [generateString, h]
    rfl

/-- Witness for C8 at the whitespace-only specification `" "`. -/
theorem empty_spec_values_witness :
    strTrim " " = "" ∧
    (generateInteger " " (⟨0, "u", "t"⟩ : RandState) = Except.ok PyVal.none ∧
      generateString " " (⟨0, "u", "t"⟩ : RandState) = Except.ok (PyVal.str "")) :=
  ⟨rfl, empty_spec_values " " ⟨0, "u", "t"⟩ rfl⟩

/-- C9: with clearing requested, `clear_path` removes exactly the files
matching `{base}*.json` whose deletion succeeds: non-matching files are
untouched, every removed file matched the pattern, a failed deletion is
only warned about — the file survives and the loop (and run) continues —
and a matching file whose deletion succeeds is removed. -/
theorem clear_path_exact (base : String) (files : List String) (df : String → Bool) :
    (∀ f ∈ files, matchesGlob base f = false → f ∈ clearPath true base files df) ∧
    (∀ f ∈ files, f ∉ clearPath true base files df →
      matchesGlob base f = true ∧ df f = false) ∧
    (∀ f ∈ files, df f = true → f ∈ clearPath true base files df) ∧
    (∀ f ∈ files, matchesGlob base f = true → df f = false →
      f ∉ clearPath true base files df) := by
  refine ⟨?_, ?_, ?_, ?_⟩
  · intro f hf hm
    simp [clearPath, List.mem_filter, hf, hm]
  · intro f hf hnot
    cases hm : matchesGlob base f with
    | false => exact absurd ((by simp [clearPath, List.mem_filter, hf, hm] : f ∈ clearPath true base files df)) hnot
    | true =>
      cases hd : df f with
      | false => exact ⟨rfl, rfl⟩
      | true => exact absurd ((by simp [clearPath, List.mem_filter, hf, hd] : f ∈ clearPath true base files df)) hnot
  · intro f hf hd
    simp [clearPath, List.mem_filter, hf, hd]
  · intro f hf hm hd
    simp [clearPath, List.mem_filter, hm, hd]

/-- Witness for C9 at the spec's scenario: directory
`[data_1.json, data_2.json, other.txt]`, base `data`, no deletion
failures — `other.txt` survives and `data_1.json` is removed. -/
theorem clear_path_exact_witness :
    "other.txt" ∈ clearPath true "data" ["data_1.json", "data_2.json", "other.txt"] noDeleteFail ∧
    "data_1.json" ∉ clearPath true "data" ["data_1.json", "data_2.json", "other.txt"] noDeleteFail :=
  ⟨(clear_path_exact "data" ["data_1.json", "data_2.json", "other.txt"] noDeleteFail).1
      "other.txt" (by simp) rfl,
   (clear_path_exact "data" ["data_1.json", "data_2.json", "other.txt"] noDeleteFail).2.2.2
      "data_1.json" (by simp) rfl rfl⟩

/-- C10: list choices are returned verbatim with no type check against the
declared field type: the `str` field specification `[1,2]` can yield the
integer `1`, and the `int` field specification `["a","b"]` can yield the
string `"a"`. -/
theorem list_choice_no_coercion :
    generateString "[1,2]" (⟨0, "u", "t"⟩ : RandState) = Except.ok (PyVal.int 1) ∧
    generateInteger "[\"a\",\"b\"]" (⟨0, "u", "t"⟩ : RandState) = Except.ok (PyVal.str "a") :=
  ⟨rfl, rfl⟩
